import Mathlib

/-!
Shallow embedding of the sphere_pack repository core: the sphere
distribution validator (src/parsing.rs), the weighted radius sampler and
cylinder container geometry (src/packing.rs), and the sizing heuristic of
the pack orchestrator. Machine floats are modelled as exact rationals in
the data model and as reals in the volume and surface-area computations;
the u32 and u8 machine sums are modelled as natural-number sums reduced
modulo 2 ^ 32 and 2 ^ 8 where the code performs machine arithmetic.
-/

namespace SpherePack

/-- One record of the input distribution, as parsed: a name, a radius
(an f64, modelled as an exact rational) and a proportion (a u8, modelled
as Fin 256). Mirrors struct ParsedSphere in src/parsing.rs. -/
structure ParsedSphere where
  name : String
  radius : ℚ
  proportion : Fin 256
deriving DecidableEq

/-- Errors of parsing and validation, mirroring enum ParsingError in
src/parsing.rs. The serde payload of FailedToParse is dropped. -/
inductive ParsingError where
  | failedToParse
  | nonPositive
  | invalidProportions
deriving DecidableEq

/-- The u32 sum of the proportions of a raw record list, as computed by
validate: each u8 proportion is cast to u32 and the machine sum wraps
modulo 2 ^ 32. -/
def proportionSum (raw : List ParsedSphere) : ℕ :=
  (raw.map (fun s => (s.proportion : ℕ))).sum % 2 ^ 32

/-- Validation of a raw record list, mirroring fn validate in
src/parsing.rs: if every radius is strictly positive and the u32 sum of
proportions equals 100, the same records are returned unchanged;
otherwise the radius check failing yields NonPositive and the proportion
check failing yields InvalidProportions. -/
def validate (raw : List ParsedSphere) : Except ParsingError (List ParsedSphere) :=
  if raw.all (fun s => 0 < s.radius) then
    if proportionSum raw = 100 then
      Except.ok raw
    else
      Except.error ParsingError.invalidProportions
  else
    Except.error ParsingError.nonPositive

/-- The FromStr conversion to validated Spheres in src/parsing.rs: the
raw parse result (the serde step, external to the core) is piped into
validate; a parse failure propagates unchanged. -/
def spheresFromStr (parsed : Except ParsingError (List ParsedSphere)) :
    Except ParsingError (List ParsedSphere) :=
  parsed.bind validate

/-- Proportion-weighted average single-sphere volume, mirroring
Spheres::avg_volume in src/parsing.rs: the sum over all records of
4/3 * pi * radius ^ 3 * (proportion / 100). -/
noncomputable def avg_volume (l : List ParsedSphere) : ℝ :=
  (l.map (fun s =>
    4 / 3 * Real.pi * (s.radius : ℝ) ^ 3 * (((s.proportion : ℕ) : ℝ) / 100))).sum

/-- Proportion-weighted average single-sphere surface area, mirroring
Spheres::avg_surface_area in src/parsing.rs: the sum over all records of
4 * pi * radius ^ 2 * (proportion / 100). -/
noncomputable def avg_surface_area (l : List ParsedSphere) : ℝ :=
  (l.map (fun s =>
    4 * Real.pi * (s.radius : ℝ) ^ 2 * (((s.proportion : ℕ) : ℝ) / 100))).sum

/-- Modelled from the spec: Spheres::total_volume is called by pack in
src/packing.rs but its definition is not under src/. The sizing step of
the spec computes sphereVolumeTarget = avgVol * 1000 from the code line
(total_volume() / 100) * 1000, so total_volume is the proportion-weighted
volume sum before the division by 100: the sum over all records of
4/3 * pi * radius ^ 3 * proportion. -/
noncomputable def total_volume (l : List ParsedSphere) : ℝ :=
  (l.map (fun s =>
    4 / 3 * Real.pi * (s.radius : ℝ) ^ 3 * ((s.proportion : ℕ) : ℝ))).sum

/-- Modelled from the spec: Spheres::total_surface_area is called by pack
in src/packing.rs but its definition is not under src/. By the same
correspondence as total_volume, it is the proportion-weighted surface
area sum before the division by 100: the sum over all records of
4 * pi * radius ^ 2 * proportion. -/
noncomputable def total_surface_area (l : List ParsedSphere) : ℝ :=
  (l.map (fun s =>
    4 * Real.pi * (s.radius : ℝ) ^ 2 * ((s.proportion : ℕ) : ℝ))).sum

/-- A point in three-dimensional space with f32 coordinates, modelled as
exact rationals. Mirrors nalgebra Point3 of f32 as used in
src/packing.rs. -/
structure Point3 where
  x : ℚ
  y : ℚ
  z : ℚ
deriving DecidableEq

/-- A candidate sphere handed to the container by the packing engine:
a center point and a radius. Mirrors spherical_cow Sphere. -/
structure Sphere where
  center : Point3
  radius : ℚ
deriving DecidableEq

/-- The cylindrical container of src/packing.rs: a radius, a height and
the location of its center. -/
structure Cylinder where
  radius : ℚ
  height : ℚ
  center : Point3
deriving DecidableEq

/-- The containment predicate of the cylinder container, a literal
transcription of impl Container for Cylinder, fn contains in
src/packing.rs: the container radius is strictly below the sphere
radius, the sphere top is strictly below center.z + height / 2, the
sphere bottom is strictly below center.z - height / 2, and the squared
three-dimensional distance between the centers is at most
(radius - sphere.radius) squared. -/
def Cylinder.contains (c : Cylinder) (s : Sphere) : Bool :=
  decide (c.radius < s.radius) &&
  decide (s.center.z + s.radius < c.center.z + c.height / 2) &&
  decide (s.center.z - s.radius < c.center.z - c.height / 2) &&
  decide ((s.center.x - c.center.x) ^ 2 + (s.center.y - c.center.y) ^ 2 +
    (s.center.z - c.center.z) ^ 2 ≤ (c.radius - s.radius) ^ 2)

/-- The cylinder volume, mirroring fn volume in src/packing.rs:
pi * radius ^ 2 * height, with pi kept exact. -/
noncomputable def Cylinder.vol (c : Cylinder) : ℝ :=
  Real.pi * (c.radius : ℝ) ^ 2 * (c.height : ℝ)

/-- The cylinder constructor, mirroring Cylinder::new in src/packing.rs.
The two assertions (radius strictly positive, height strictly positive)
are modelled as an Option: a failed assertion aborts construction and is
none. On success the center sits at the base point shifted by the full
height along the vertical axis. -/
def Cylinder.new (bottom : Point3) (radius height : ℚ) : Option Cylinder :=
  if 0 < radius ∧ 0 < height then
    some ⟨radius, height, ⟨bottom.x, bottom.y, bottom.z + height⟩⟩
  else
    none

/-- The containment predicate as the literal words of the spec sentence
for the claim read it: container radius strictly below sphere radius,
the vertical extent of the sphere lying within the height window around
the cylinder center, and the full three-dimensional Euclidean distance
between the centers at most (container radius - sphere radius). Stated
over the reals so the distance is an actual square root. -/
def containsPerClaim (c : Cylinder) (s : Sphere) : Prop :=
  (c.radius : ℝ) < (s.radius : ℝ) ∧
  (c.center.z : ℝ) - (c.height : ℝ) / 2 ≤ (s.center.z : ℝ) - (s.radius : ℝ) ∧
  (s.center.z : ℝ) + (s.radius : ℝ) ≤ (c.center.z : ℝ) + (c.height : ℝ) / 2 ∧
  Real.sqrt (((s.center.x : ℝ) - (c.center.x : ℝ)) ^ 2 +
      ((s.center.y : ℝ) - (c.center.y : ℝ)) ^ 2 +
      ((s.center.z : ℝ) - (c.center.z : ℝ)) ^ 2) ≤
    (c.radius : ℝ) - (s.radius : ℝ)

/-- Errors of weighted-index construction in the rand crate, as surfaced
by WeightedRadiusDist::new in src/packing.rs: an empty weight list, or a
total weight of zero. -/
inductive WeightedError where
  | noItem
  | allWeightsZero
deriving DecidableEq

/-- Construction of the discrete weighted index over u8 weights,
mirroring rand WeightedIndex::new as invoked with Vec of u8 in
src/packing.rs: an empty list fails with noItem; a total weight of zero
fails with allWeightsZero, the total being accumulated in u8 machine
arithmetic, hence reduced modulo 2 ^ 8. -/
def weightedIndexNew (weights : List ℕ) : Except WeightedError (List ℕ) :=
  if weights = [] then
    Except.error WeightedError.noItem
  else if weights.sum % 2 ^ 8 = 0 then
    Except.error WeightedError.allWeightsZero
  else
    Except.ok weights

/-- The weighted radius sampler of src/packing.rs: the list of radius
choices and the parallel weight table of its discrete distribution. -/
structure WeightedRadiusDist where
  choices : List ℚ
  weights : List ℕ
deriving DecidableEq

/-- Construction of the weighted radius sampler, mirroring
WeightedRadiusDist::new in src/packing.rs: the (radius, proportion)
pairs are unzipped and the weights are handed to WeightedIndex::new; its
failure (unwrapped in the code, hence an abort) is modelled as the error
case. -/
def WeightedRadiusDist.new (items : List (ℚ × Fin 256)) :
    Except WeightedError WeightedRadiusDist :=
  match weightedIndexNew (items.map (fun i => (i.2 : ℕ))) with
  | Except.error e => Except.error e
  | Except.ok ws => Except.ok ⟨items.map (fun i => i.1), ws⟩

/-- The sampler built by pack in src/packing.rs from a validated record
list: one (radius, proportion) pair per record, in order. -/
def packSampler (l : List ParsedSphere) : Except WeightedError WeightedRadiusDist :=
  WeightedRadiusDist.new (l.map (fun s => (s.radius, s.proportion)))

/-- The target total sphere volume of the sizing heuristic in pack,
src/packing.rs: (total_volume() / 100) * 1000 with the nominal
population TARGET_SPHERE_CT = 1000. -/
noncomputable def sphere_volume (l : List ParsedSphere) : ℝ :=
  total_volume l / 100 * 1000

/-- The container volume of the sizing heuristic in pack,
src/packing.rs: twice the target total sphere volume. -/
noncomputable def cyl_volume (l : List ParsedSphere) : ℝ :=
  sphere_volume l * 2

/-- The cylinder radius solved from a container volume in pack,
src/packing.rs: the cube root of volume / (pi * 8), the aspect constant
being 8. -/
noncomputable def cyl_rad_of (v : ℝ) : ℝ :=
  (v / (Real.pi * 8)) ^ ((1 : ℝ) / 3)

/-- The cylinder height solved from a container volume in pack,
src/packing.rs: the radius times the aspect constant 8. -/
noncomputable def cyl_height_of (v : ℝ) : ℝ :=
  cyl_rad_of v * 8

/-- The cylinder radius pack derives for a validated record list. -/
noncomputable def cyl_rad (l : List ParsedSphere) : ℝ :=
  cyl_rad_of (cyl_volume l)

/-- The cylinder height pack derives for a validated record list. -/
noncomputable def cyl_height (l : List ParsedSphere) : ℝ :=
  cyl_height_of (cyl_volume l)

/-- The surface-area-to-volume ratio reported in SimOutput by pack,
src/packing.rs: total_volume() / total_surface_area(), computed from the
input distribution alone. -/
noncomputable def sa_to_vol (l : List ParsedSphere) : ℝ :=
  total_volume l / total_surface_area l

/-- The two-record distribution of the repository tests: radius 5 with
proportion 66 and radius 400 with proportion 34. -/
def exRaw : List ParsedSphere :=
  [⟨"5_micron_Al", 5, ⟨66, by norm_num⟩⟩, ⟨"400_AP", 400, ⟨34, by norm_num⟩⟩]

/-- The raw input refuting the literal reading of the validation claim:
16843009 records of proportion 255 followed by one record of proportion
101, every radius equal to 1. Its mathematical proportion sum is
2 ^ 32 + 100, which the u32 machine sum wraps to 100. -/
def overflowRaw : List ParsedSphere :=
  List.replicate 16843009 ⟨"bulk", 1, ⟨255, by norm_num⟩⟩ ++ [⟨"tail", 1, ⟨101, by norm_num⟩⟩]

lemma overflowRaw_sum :
    (overflowRaw.map (fun s => (s.proportion : ℕ))).sum = 2 ^ 32 + 100 := by
  unfold overflowRaw
  rw [List.map_append, List.sum_append, List.map_replicate, List.sum_replicate]
  norm_num

lemma overflowRaw_all_pos : overflowRaw.all (fun s => 0 < s.radius) = true := by
  rw [List.all_eq_true]
  intro s hs
  rcases List.mem_append.1 hs with hmem | hmem
  · rw [List.eq_of_mem_replicate hmem]
    decide
  · rw [List.mem_singleton.1 hmem]
    decide

lemma validate_ok_elim (raw l : List ParsedSphere) (h : validate raw = Except.ok l) :
    l = raw ∧ raw.all (fun s => 0 < s.radius) = true ∧ proportionSum raw = 100 := by
  unfold validate at h
  split_ifs at h with h1 h2
  exact ⟨(Except.ok.inj h).symm, h1, h2⟩

lemma proportionSum_congr (raw : List ParsedSphere) (n : ℕ)
    (h : (raw.map (fun s => (s.proportion : ℕ))).sum = n) :
    proportionSum raw = n % 2 ^ 32 := by
  unfold proportionSum
  rw [h]

lemma validate_eq_ok (raw : List ParsedSphere)
    (h1 : raw.all (fun s => 0 < s.radius) = true) (h2 : proportionSum raw = 100) :
    validate raw = Except.ok raw := by
  unfold validate
  rw [h1, h2]
  simp

/-- Claim C1 counterexample: validate succeeds on a raw distribution
whose proportions do not sum to 100. The mathematical sum is
2 ^ 32 + 100, but validate compares the u32 machine sum, which wraps to
exactly 100, so validation succeeds although the claim requires it to
fail with InvalidProportions. -/
theorem validate_accepts_wrapped_sum :
    validate overflowRaw = Except.ok overflowRaw ∧
    (overflowRaw.map (fun s => (s.proportion : ℕ))).sum ≠ 100 := by
  refine ⟨validate_eq_ok overflowRaw overflowRaw_all_pos
    ((proportionSum_congr overflowRaw _ overflowRaw_sum).trans (by norm_num)), ?_⟩
  rw [overflowRaw_sum]
  norm_num

/-- Claim C1 (amended): validate succeeds iff every radius is strictly
positive and the u32 machine sum of the proportions (the mathematical
sum reduced modulo 2 ^ 32) equals exactly 100; it fails with
NonPositive when any radius is at most 0, regardless of the proportion
sum, and with InvalidProportions when all radii are positive but the
wrapped sum is not 100. -/
theorem validate_characterization (raw : List ParsedSphere) :
    ((validate raw).isOk = true ↔
      ((∀ s ∈ raw, 0 < s.radius) ∧ proportionSum raw = 100)) ∧
    ((validate raw = Except.error ParsingError.nonPositive) ↔
      (∃ s ∈ raw, s.radius ≤ 0)) ∧
    ((validate raw = Except.error ParsingError.invalidProportions) ↔
      ((∀ s ∈ raw, 0 < s.radius) ∧ proportionSum raw ≠ 100)) := by
  have hall : raw.all (fun s => 0 < s.radius) = true ↔ ∀ s ∈ raw, 0 < s.radius := by
    simp [List.all_eq_true]
  by_cases hA : ∀ s ∈ raw, 0 < s.radius
  · have hnex : ¬ ∃ s ∈ raw, s.radius ≤ 0 := by
      rintro ⟨s, hs, hle⟩
      exact absurd (hA s hs) (not_lt.2 hle)
    by_cases hB : proportionSum raw = 100
    · have hv : validate raw = Except.ok raw := by
        unfold validate
        rw [if_pos (hall.2 hA), if_pos hB]
      rw [hv]
      simp [Except.isOk, Except.toBool, hA, hB, hnex]
      exact hA
    · have hv : validate raw = Except.error ParsingError.invalidProportions := by
        unfold validate
        rw [if_pos (hall.2 hA), if_neg hB]
      rw [hv]
      simp [Except.isOk, Except.toBool, hA, hB, hnex]
      exact hA
  · have hex : ∃ s ∈ raw, s.radius ≤ 0 := by
      have hA2 := hA
      push_neg at hA2
      obtain ⟨s, hs, hle⟩ := hA2
      exact ⟨s, hs, hle⟩
    have hv : validate raw = Except.error ParsingError.nonPositive := by
      unfold validate
      rw [if_neg (fun hc => hA (hall.1 hc))]
    rw [hv]
    simp [Except.isOk, Except.toBool, hA, hex]

/-- Claim C9: when validation succeeds, the validated value holds
exactly the records of the raw input, unchanged and in order. -/
theorem validate_preserves_records (raw out : List ParsedSphere)
    (h : validate raw = Except.ok out) : out = raw :=
  (validate_ok_elim raw out h).1

/-- Witness for claim C9 at the two-record test distribution. -/
theorem validate_preserves_records_witness :
    validate exRaw = Except.ok exRaw ∧ exRaw = exRaw :=
  ⟨rfl, validate_preserves_records exRaw exRaw rfl⟩

/-- Claim C10: the empty record list is rejected by validation with
InvalidProportions (its proportion sum is 0, not 100), and the public
FromStr conversion to validated Spheres turns a successfully parsed
empty array into the same InvalidProportions failure: there is no
empty-input success path. -/
theorem empty_distribution_rejected :
    validate ([] : List ParsedSphere) = Except.error ParsingError.invalidProportions ∧
    spheresFromStr (Except.ok ([] : List ParsedSphere)) =
      Except.error ParsingError.invalidProportions :=
  ⟨rfl, rfl⟩

lemma total_volume_eq_hundred_mul (l : List ParsedSphere) :
    total_volume l = 100 * avg_volume l := by
  unfold total_volume avg_volume
  induction l with
  | nil => simp
  | cons a t ih =>
    rw [List.map_cons, List.sum_cons, List.map_cons, List.sum_cons, ih]
    ring

lemma total_surface_area_eq_hundred_mul (l : List ParsedSphere) :
    total_surface_area l = 100 * avg_surface_area l := by
  unfold total_surface_area avg_surface_area
  induction l with
  | nil => simp
  | cons a t ih =>
    rw [List.map_cons, List.sum_cons, List.map_cons, List.sum_cons, ih]
    ring

/-- Claim C2: the target total sphere volume of the sizing heuristic in
pack equals the proportion-weighted average single-sphere volume
avg_volume times the nominal population of 1000, and the container
volume is exactly twice that target. -/
theorem pack_target_and_container_volume (l : List ParsedSphere) :
    sphere_volume l = avg_volume l * 1000 ∧ cyl_volume l = 2 * sphere_volume l := by
  constructor
  · unfold sphere_volume
    rw [total_volume_eq_hundred_mul]
    ring
  · unfold cyl_volume
    ring

/-- Claim C4: the sa_to_vol field pack reports equals avg_volume divided
by avg_surface_area, both computed from the input distribution alone. -/
theorem sa_to_vol_eq_avg_ratio (l : List ParsedSphere) :
    sa_to_vol l = avg_volume l / avg_surface_area l := by
  unfold sa_to_vol
  rw [total_volume_eq_hundred_mul, total_surface_area_eq_hundred_mul,
    mul_div_mul_left _ _ (by norm_num : (100 : ℝ) ≠ 0)]

/-- Claim C8: the proportion-weighted average volume and average surface
area are invariant under any permutation of the records. -/
theorem avg_invariant_under_perm (l₁ l₂ : List ParsedSphere) (h : l₁.Perm l₂) :
    avg_volume l₁ = avg_volume l₂ ∧ avg_surface_area l₁ = avg_surface_area l₂ := by
  constructor
  · unfold avg_volume
    exact (h.map _).sum_eq
  · unfold avg_surface_area
    exact (h.map _).sum_eq

/-- The two-record test distribution with its records swapped. -/
def exRawSwapped : List ParsedSphere :=
  [⟨"400_AP", 400, ⟨34, by norm_num⟩⟩, ⟨"5_micron_Al", 5, ⟨66, by norm_num⟩⟩]

/-- Witness for claim C8: the two-record test distribution and its swap
are a permutation pair with equal weighted averages. -/
theorem avg_invariant_under_perm_witness :
    exRaw.Perm exRawSwapped ∧
    avg_volume exRaw = avg_volume exRawSwapped ∧
    avg_surface_area exRaw = avg_surface_area exRawSwapped :=
  ⟨List.Perm.swap _ _ _,
   (avg_invariant_under_perm exRaw exRawSwapped (List.Perm.swap _ _ _)).1,
   (avg_invariant_under_perm exRaw exRawSwapped (List.Perm.swap _ _ _)).2⟩

/-- Claim C5: for a positive container volume, the cylinder radius pack
derives is the real cube root of volume / (pi * 8), the height is the
radius times 8, and the height-to-radius aspect ratio is exactly 8. -/
theorem pack_cylinder_aspect (l : List ParsedSphere) (h : 0 < cyl_volume l) :
    cyl_rad l ^ (3 : ℕ) = cyl_volume l / (Real.pi * 8) ∧
    cyl_height l = cyl_rad l * 8 ∧
    cyl_height l / cyl_rad l = 8 := by
  have hbase : 0 < cyl_volume l / (Real.pi * 8) :=
    div_pos h (by positivity)
  have hcube : cyl_rad l ^ (3 : ℕ) = cyl_volume l / (Real.pi * 8) := by
    unfold cyl_rad cyl_rad_of
    rw [← Real.rpow_natCast ((cyl_volume l / (Real.pi * 8)) ^ ((1 : ℝ) / 3)) 3,
      ← Real.rpow_mul hbase.le]
    norm_num
  have hrpos : 0 < cyl_rad l := Real.rpow_pos_of_pos hbase _
  refine ⟨hcube, rfl, ?_⟩
  rw [show cyl_height l = cyl_rad l * 8 from rfl, mul_comm, mul_div_assoc,
    div_self hrpos.ne', mul_one]

lemma exRaw_total_volume_pos : 0 < total_volume exRaw := by
  unfold total_volume exRaw
  rw [List.map_cons, List.map_cons, List.map_nil, List.sum_cons, List.sum_cons,
    List.sum_nil]
  norm_num
  positivity

lemma exRaw_cyl_volume_pos : 0 < cyl_volume exRaw := by
  unfold cyl_volume sphere_volume
  have := exRaw_total_volume_pos
  positivity

/-- Witness for claim C5 at the two-record test distribution, whose
container volume is positive. -/
theorem pack_cylinder_aspect_witness :
    0 < cyl_volume exRaw ∧
    (cyl_rad exRaw ^ (3 : ℕ) = cyl_volume exRaw / (Real.pi * 8) ∧
     cyl_height exRaw = cyl_rad exRaw * 8 ∧
     cyl_height exRaw / cyl_rad exRaw = 8) :=
  ⟨exRaw_cyl_volume_pos, pack_cylinder_aspect exRaw exRaw_cyl_volume_pos⟩

/-- Claim C6: cylinder construction succeeds exactly when both radius
and height are strictly positive, and aborts (fatally, modelled as none)
exactly when the radius or the height is at most 0, zero included. -/
theorem cylinder_new_characterization (b : Point3) (r h : ℚ) :
    ((Cylinder.new b r h).isSome = true ↔ (0 < r ∧ 0 < h)) ∧
    (Cylinder.new b r h = none ↔ (r ≤ 0 ∨ h ≤ 0)) := by
  unfold Cylinder.new
  by_cases hc : 0 < r ∧ 0 < h
  · rw [if_pos hc]
    constructor
    · simp [hc]
    · simp [hc.1.not_le, hc.2.not_le]
  · rw [if_neg hc]
    have hle : r ≤ 0 ∨ h ≤ 0 := by
      rcases not_and_or.1 hc with h1 | h1
      · exact Or.inl (not_lt.1 h1)
      · exact Or.inr (not_lt.1 h1)
    constructor
    · simp [hc]
    · simp [hle]

lemma packSampler_weights (l : List ParsedSphere) :
    (l.map (fun s => (s.radius, s.proportion))).map (fun i => (i.2 : ℕ)) =
      l.map (fun s => (s.proportion : ℕ)) := by
  rw [List.map_map]
  rfl

/-- Claim C7: for any record list produced by successful validation, the
weighted radius sampler construction succeeds: the list is nonempty and
its u8 total weight is 100, not zero, so neither failure branch of the
weighted-index construction is reachable. -/
theorem packSampler_never_fails (raw l : List ParsedSphere)
    (h : validate raw = Except.ok l) : (packSampler l).isOk = true := by
  obtain ⟨rfl, hall, hsum⟩ := validate_ok_elim raw l h
  have hsum8 : (l.map (fun s => (s.proportion : ℕ))).sum % 2 ^ 8 = 100 := by
    have hdvd : (2 : ℕ) ^ 8 ∣ 2 ^ 32 := pow_dvd_pow 2 (by norm_num)
    calc (l.map (fun s => (s.proportion : ℕ))).sum % 2 ^ 8
        = (l.map (fun s => (s.proportion : ℕ))).sum % 2 ^ 32 % 2 ^ 8 :=
          (Nat.mod_mod_of_dvd _ hdvd).symm
      _ = 100 % 2 ^ 8 := by rw [show (l.map (fun s => (s.proportion : ℕ))).sum % 2 ^ 32
            = 100 from hsum]
      _ = 100 := by norm_num
  have hnil : l ≠ [] := by
    rintro rfl
    simp [proportionSum] at hsum
  unfold packSampler WeightedRadiusDist.new weightedIndexNew
  rw [packSampler_weights, if_neg (fun hc => hnil (List.map_eq_nil_iff.1 hc)),
    if_neg (fun hc => by rw [hsum8] at hc; norm_num at hc)]
  rfl

/-- Witness for claim C7 at the two-record test distribution, which
validates successfully. -/
theorem packSampler_never_fails_witness :
    validate exRaw = Except.ok exRaw ∧ (packSampler exRaw).isOk = true :=
  ⟨rfl, packSampler_never_fails exRaw exRaw rfl⟩

/-- The concrete cylinder of the containment counterexample: radius 1,
height 4, centered at the origin. -/
def cexCyl : SpherePack.Cylinder := ⟨1, 4, ⟨0, 0, 0⟩⟩

/-- The concrete candidate sphere of the containment counterexample:
radius 10, centered at (0, 0, -17/2). -/
def cexSph : SpherePack.Sphere := ⟨⟨0, 0, -(17 / 2)⟩, 10⟩

/-- Claim C3 counterexample: the contains predicate of the code accepts
this sphere, yet the conjunction the claim states is false there: the
Euclidean center distance is 17/2, which is not at most the negative
quantity container radius minus sphere radius (1 - 10 = -9), and the
sphere bottom does not lie within the height window either. -/
theorem contains_cex : cexCyl.contains cexSph = true ∧ ¬ containsPerClaim cexCyl cexSph := by
  constructor
  · simp only [Cylinder.contains, cexCyl, cexSph, Bool.and_eq_true, decide_eq_true_eq]
    norm_num
  · intro hcl
    obtain ⟨h1, h2, h3, h4⟩ := hcl
    have hnn := Real.sqrt_nonneg
      (((cexSph.center.x : ℝ) - (cexCyl.center.x : ℝ)) ^ 2 +
        ((cexSph.center.y : ℝ) - (cexCyl.center.y : ℝ)) ^ 2 +
        ((cexSph.center.z : ℝ) - (cexCyl.center.z : ℝ)) ^ 2)
    have hlt : (cexCyl.radius : ℝ) - (cexSph.radius : ℝ) < 0 := by
      norm_num [cexCyl, cexSph]
    linarith

/-- Claim C3 (amended): contains holds exactly when the container radius
is strictly below the sphere radius, the sphere top is strictly below
the top of the height window around the cylinder center, the sphere
bottom is strictly below the bottom of that window (extending past it,
not lying within it), and the Euclidean distance between the two centers
is at most sphere radius minus container radius (the absolute value of
the stated difference). -/
theorem contains_characterization (c : SpherePack.Cylinder) (s : SpherePack.Sphere) :
    c.contains s = true ↔
      ((c.radius : ℝ) < (s.radius : ℝ) ∧
       (s.center.z : ℝ) + (s.radius : ℝ) < (c.center.z : ℝ) + (c.height : ℝ) / 2 ∧
       (s.center.z : ℝ) - (s.radius : ℝ) < (c.center.z : ℝ) - (c.height : ℝ) / 2 ∧
       Real.sqrt (((s.center.x : ℝ) - (c.center.x : ℝ)) ^ 2 +
           ((s.center.y : ℝ) - (c.center.y : ℝ)) ^ 2 +
           ((s.center.z : ℝ) - (c.center.z : ℝ)) ^ 2) ≤
         (s.radius : ℝ) - (c.radius : ℝ)) := by
  unfold Cylinder.contains
  simp only [Bool.and_eq_true, decide_eq_true_eq]
  constructor
  · rintro ⟨⟨⟨h1, h2⟩, h3⟩, h4⟩
    have h1R : (c.radius : ℝ) < (s.radius : ℝ) := by exact_mod_cast h1
    refine ⟨h1R, by exact_mod_cast h2, by exact_mod_cast h3, ?_⟩
    have h4R : ((s.center.x : ℝ) - (c.center.x : ℝ)) ^ 2 +
        ((s.center.y : ℝ) - (c.center.y : ℝ)) ^ 2 +
        ((s.center.z : ℝ) - (c.center.z : ℝ)) ^ 2 ≤
        ((c.radius : ℝ) - (s.radius : ℝ)) ^ 2 := by exact_mod_cast h4
    calc Real.sqrt (((s.center.x : ℝ) - (c.center.x : ℝ)) ^ 2 +
          ((s.center.y : ℝ) - (c.center.y : ℝ)) ^ 2 +
          ((s.center.z : ℝ) - (c.center.z : ℝ)) ^ 2)
        ≤ Real.sqrt (((c.radius : ℝ) - (s.radius : ℝ)) ^ 2) := Real.sqrt_le_sqrt h4R
      _ = |(c.radius : ℝ) - (s.radius : ℝ)| := Real.sqrt_sq_eq_abs _
      _ = (s.radius : ℝ) - (c.radius : ℝ) := by
          rw [abs_sub_comm]
          exact abs_of_nonneg (by linarith)
  · rintro ⟨h1, h2, h3, h4⟩
    refine ⟨⟨⟨by exact_mod_cast h1, by exact_mod_cast h2⟩, by exact_mod_cast h3⟩, ?_⟩
    have hD : (0 : ℝ) ≤ ((s.center.x : ℝ) - (c.center.x : ℝ)) ^ 2 +
        ((s.center.y : ℝ) - (c.center.y : ℝ)) ^ 2 +
        ((s.center.z : ℝ) - (c.center.z : ℝ)) ^ 2 := by positivity
    have hsq : Real.sqrt (((s.center.x : ℝ) - (c.center.x : ℝ)) ^ 2 +
        ((s.center.y : ℝ) - (c.center.y : ℝ)) ^ 2 +
        ((s.center.z : ℝ) - (c.center.z : ℝ)) ^ 2) ^ 2 ≤
        ((s.radius : ℝ) - (c.radius : ℝ)) ^ 2 :=
      pow_le_pow_left₀ (Real.sqrt_nonneg _) h4 2
    rw [Real.sq_sqrt hD] at hsq
    have hfin : ((s.center.x : ℝ) - (c.center.x : ℝ)) ^ 2 +
        ((s.center.y : ℝ) - (c.center.y : ℝ)) ^ 2 +
        ((s.center.z : ℝ) - (c.center.z : ℝ)) ^ 2 ≤
        ((c.radius : ℝ) - (s.radius : ℝ)) ^ 2 := by
      calc ((s.center.x : ℝ) - (c.center.x : ℝ)) ^ 2 +
          ((s.center.y : ℝ) - (c.center.y : ℝ)) ^ 2 +
          ((s.center.z : ℝ) - (c.center.z : ℝ)) ^ 2
          ≤ ((s.radius : ℝ) - (c.radius : ℝ)) ^ 2 := hsq
        _ = ((c.radius : ℝ) - (s.radius : ℝ)) ^ 2 := by ring
    exact_mod_cast hfin

end SpherePack

